import Mathlib

/-!
Verification of the ads-reporting-platform sync core against its
natural-language specification.

The Python source is shallowly embedded: timestamps become integer seconds,
the DynamoDB backing store becomes a list of items with key-replacing `put`
semantics, network responses become explicit input parameters, and every
`try/except` becomes an `Except`-valued input describing the outcome of the
external call.  All definitions are translated from the repository source
(file and line references in each doc comment).
-/

set_option autoImplicit false

namespace SyncTracker

/-- Constant `MAX_SYNCS` from src/frontend/api/utils/sync_tracker.py line 20. -/
def MAX_SYNCS : Nat := 3

/-- Constant `COOLDOWN_HOURS` from src/frontend/api/utils/sync_tracker.py line 21. -/
def COOLDOWN_HOURS : Nat := 3

/-- The cooldown window expressed in seconds (`datetime.timedelta(hours=3)`
with timestamps modelled as integer seconds). -/
def cooldownSeconds : Int := COOLDOWN_HOURS * 3600

/-- Embeds `SyncTracker._get_active_timestamps` (sync_tracker.py lines 75-79):
keep the timestamps `ts` with `now - ts < cooldown`. -/
def activeTimestamps (timestamps : List Int) (now : Int) : List Int :=
  timestamps.filter (fun ts => now - ts < cooldownSeconds)

/-- The dictionary returned by `SyncTracker.get_status`
(sync_tracker.py lines 108-116). -/
structure SyncStatus where
  syncs_used : Nat
  syncs_remaining : Int
  max_syncs : Nat
  can_sync : Bool
  cooldown_hours : Nat
  next_free_at : Option Int
  cooldown_seconds_remaining : Int
  deriving DecidableEq

/-- Embeds `SyncTracker.get_status` (sync_tracker.py lines 81-116), with the stored
timestamp list and the current time passed explicitly.  The persistence
side effect (self-healing cleanup) does not change the returned status and
is modelled separately by `statusPersisted`. -/
def get_status (stored : List Int) (now : Int) : SyncStatus :=
  let active := activeTimestamps stored now
  let syncs_used := active.length
  let syncs_remaining : Int := max 0 ((MAX_SYNCS : Int) - syncs_used)
  let can_sync : Bool := decide (syncs_remaining > 0)
  let oldest : Int := match active with
    | [] => 0
    | t :: ts => ts.foldl min t
  let free_at : Int := oldest + cooldownSeconds
  let next_free_at : Option Int :=
    if ¬can_sync ∧ active ≠ [] then some free_at else none
  let cooldown_seconds_remaining : Int :=
    if ¬can_sync ∧ active ≠ [] then max 0 (free_at - now) else 0
  { syncs_used := syncs_used
    syncs_remaining := syncs_remaining
    max_syncs := MAX_SYNCS
    can_sync := can_sync
    cooldown_hours := COOLDOWN_HOURS
    next_free_at := next_free_at
    cooldown_seconds_remaining := cooldown_seconds_remaining }

/-- The timestamp list persisted by `get_status` (sync_tracker.py lines
89-92): the pruned list when entries expired, the stored list otherwise. -/
def statusPersisted (stored : List Int) (now : Int) : List Int :=
  let active := activeTimestamps stored now
  if active.length ≠ stored.length then active else stored

end SyncTracker

namespace SyncTracker

/-- Embeds `SyncTracker._get_tracker` (sync_tracker.py lines 59-66): a failed
`get_item` call, and a missing item, both yield the fresh empty window. -/
def getTracker (readResult : Except String (Option (List Int))) : List Int :=
  match readResult with
  | .error _ => []
  | .ok none => []
  | .ok (some ts) => ts

/-- Embeds `SyncTracker._save_tracker` (sync_tracker.py lines 68-73): the outcome of
the underlying `put_item` call is caught and swallowed, so the caller always
observes a normal return. -/
def saveTracker (putResult : Except String Unit) : Except String Unit :=
  match putResult with
  | .error _ => Except.ok ()
  | .ok _ => Except.ok ()

/-- Composition of `get_status` with the store read (`get_status` calls
`_get_tracker` on entry). -/
def getStatusFromStore (readResult : Except String (Option (List Int)))
    (now : Int) : SyncStatus :=
  get_status (getTracker readResult) now

/-- Embeds `SyncTracker.record_sync` (sync_tracker.py lines 118-126): re-filter the
stored window, append `now`, persist.  Returns the list handed to
`_save_tracker` and the caller-visible outcome. -/
def record_sync (readResult : Except String (Option (List Int))) (now : Int)
    (putResult : Except String Unit) : List Int × Except String Unit :=
  let active := activeTimestamps (getTracker readResult) now
  let newList := active ++ [now]
  (newList, saveTracker putResult)

end SyncTracker

namespace Database

/-- One stored row of the campaign-metrics table.  `write_campaign_metrics`
(src/frontend/api/Database/database.py lines 33-38) builds the item from the
key pair, the sync timestamp and the remaining metric attributes (modelled as
an association list of attribute name/value). -/
structure Item where
  campaign_id : String
  range_days : Int
  last_synced : String
  metrics : List (String × String)
  deriving DecidableEq

/-- Two items occupy the same (campaign_id, range_days) slot. -/
def sameKey (a b : Item) : Bool :=
  a.campaign_id == b.campaign_id && a.range_days == b.range_days

/-- The `put_item` primitive of the backing store: a full replace of whatever item sits at
the key (the managed key-value table of spec section 6). -/
def putItem (table : List Item) (item : Item) : List Item :=
  item :: table.filter (fun r => !(sameKey r item))

/-- Read the item stored at a (campaign_id, range_days) key. -/
def getItem (table : List Item) (cid : String) (days : Int) : Option Item :=
  table.find? (fun r => r.campaign_id == cid && r.range_days == days)

/-- The item literal of `write_campaign_metrics` (database.py lines 33-38). -/
def mkItem (cid : String) (days : Int) (metrics : List (String × String))
    (now : String) : Item :=
  { campaign_id := cid, range_days := days, last_synced := now,
    metrics := metrics }

/-- Outcome of one underlying `put_item` / batch call, as seen by the
`except` clauses of database.py: success, a
`ProvisionedThroughputExceededException`, or any other error. -/
inductive WriteOutcome where
  | ok
  | throughput
  | failure
  deriving DecidableEq

/-- The retry loop of `write_campaign_metrics` (database.py lines 40-52):
up to 5 attempts, retrying only on throughput rejection; returns the new
table and the boolean result.  `outcomes` gives the behaviour of the store on
each attempt; the fuel argument counts the remaining iterations of
`for attempt in range(5)`. -/
def putWithRetry (table : List Item) (item : Item)
    (outcomes : Nat → WriteOutcome) : Nat → Nat → List Item × Bool
  | 0, _ => (table, false)
  | fuel + 1, attempt =>
    match outcomes attempt with
    | .ok => (putItem table item, true)
    | .throughput => putWithRetry table item outcomes fuel (attempt + 1)
    | .failure => (table, false)

/-- Embeds `DynamoDB.write_campaign_metrics` (database.py lines 26-52). -/
def write_campaign_metrics (table : List Item) (cid : String) (days : Int)
    (metrics : List (String × String)) (now : String)
    (outcomes : Nat → WriteOutcome) : List Item × Bool :=
  putWithRetry table (mkItem cid days metrics now) outcomes 5 0

/-- An input row of `batch_write_campaign_metrics`: the value of
`campaign.get("campaign_id")` (absent ↦ `none`, empty string the falsy
string) and the remaining key/value pairs. -/
structure Campaign where
  campaign_id : Option String
  attrs : List (String × String)
  deriving DecidableEq

/-- Python truthiness of `campaign.get("campaign_id")` for a string-valued
field: present and non-empty. -/
def truthyId : Option String → Bool
  | some s => !(s == "")
  | none => false

/-- The item built for one campaign row (database.py lines 69-78). -/
def toItem (c : Campaign) (days : Int) (timestamp : String) : Item :=
  { campaign_id := c.campaign_id.getD "", range_days := days,
    last_synced := timestamp, metrics := c.attrs }

/-- The `items` list of `batch_write_campaign_metrics` (database.py lines
68-78): rows without a truthy campaign_id are dropped. -/
def prepareItems (campaigns : List Campaign) (days : Int)
    (timestamp : String) : List Item :=
  campaigns.filterMap (fun c =>
    if truthyId c.campaign_id then some (toItem c days timestamp) else none)

/-- Embeds `for i in range(0, len(items), 25): batch = items[i:i+25]`
(database.py lines 81-83): the list of batch calls issued. -/
def chunksOf25 {α : Type} (l : List α) : List (List α) :=
  (List.range ((l.length + 24) / 25)).map (fun i => (l.drop (25 * i)).take 25)

/-- The per-chunk retry loop of `batch_write_campaign_metrics` (database.py
lines 85-98): on success write every item of the chunk and move on; on
throughput rejection retry (up to 5 attempts); on any other error give up on
the chunk (`break`), leaving the table unchanged. -/
def applyChunk (table : List Item) (chunk : List Item)
    (outcomes : Nat → WriteOutcome) : Nat → Nat → List Item
  | 0, _ => table
  | fuel + 1, attempt =>
    match outcomes attempt with
    | .ok => chunk.foldl putItem table
    | .throughput => applyChunk table chunk outcomes fuel (attempt + 1)
    | .failure => table

/-- Embeds `DynamoDB.batch_write_campaign_metrics` (database.py lines 54-101).
Returns the table after all chunks, the list of issued batch calls, and the
boolean result (the function body ends in `return True` on every path).
`outcomes i a` is the response of the store to attempt `a` on chunk `i`. -/
def batch_write_campaign_metrics (table : List Item)
    (campaigns : List Campaign) (days : Int) (timestamp : String)
    (outcomes : Nat → Nat → WriteOutcome) :
    List Item × List (List Item) × Bool :=
  if campaigns.isEmpty then (table, [], true)
  else
    let items := prepareItems campaigns days timestamp
    let chunks := chunksOf25 items
    let newTable := chunks.enum.foldl
      (fun t p => applyChunk t p.2 (outcomes p.1) 5 0) table
    (newTable, chunks, true)

/-- One page of the secondary-index query (database.py lines 111-125): the
store returns up to `pageSize` of the items matching `range_days = w`,
starting at continuation position `start`, plus a `LastEvaluatedKey` when
more matching items remain. -/
def queryPage (table : List Item) (w : Int) (pageSize : Nat) (start : Nat) :
    List Item × Option Nat :=
  let matching := table.filter (fun r => r.range_days == w)
  ((matching.drop start).take pageSize,
    if start + pageSize < matching.length then some (start + pageSize)
    else none)

/-- The pagination loop of `read_campaign_metrics` (database.py lines
116-127): issue the query, then follow `LastEvaluatedKey` until absent.
The fuel bounds the number of pages (sufficient whenever
`fuel > table.length / pageSize`). -/
def readIndexedFrom (table : List Item) (w : Int) (pageSize : Nat) :
    Nat → Nat → List Item
  | 0, _ => []
  | fuel + 1, start =>
    match queryPage table w pageSize start with
    | (page, none) => page
    | (page, some k) => page ++ readIndexedFrom table w pageSize fuel k

/-- The indexed path of `DynamoDB.read_campaign_metrics`
(database.py lines 108-127). -/
def read_campaign_metrics_indexed (table : List Item) (w : Int)
    (pageSize : Nat) : List Item :=
  readIndexedFrom table w pageSize (table.length + 1) 0

/-- The scan fallback of `DynamoDB.read_campaign_metrics` (database.py lines
128-135): one `scan` call with an equality filter, returning only that
`Items` field of that one response.  A scan response covers at most a page of the table
(the 1 MB limit of the backing store) with the filter applied afterwards;
the code issues no follow-up call for `LastEvaluatedKey`. -/
def read_campaign_metrics_fallback (table : List Item) (w : Int)
    (pageSize : Nat) : List Item :=
  (table.take pageSize).filter (fun r => r.range_days == w)

end Database

namespace MetaCurl

/-- One campaign row of a Meta insights response: a JSON object, modelled as
an association list of field name/value. -/
abbrev MetaRow : Type := List (String × String)

/-- The body of one `/insights` response for a request with `limit`: the
remote serves at most `limit` rows of the full result set in `data`, and a
`paging.next` cursor (modelled as the next offset) when more rows remain. -/
structure InsightsResponse where
  data : List MetaRow
  nextPage : Option Nat
  deriving DecidableEq

/-- The response Meta serves to the single request that `fetch_for_account`
issues (src/frontend/api/meta/meta_curl.py lines 56-65, `limit: 500`). -/
def metaInsightsPage (remote : List MetaRow) (limit : Nat) :
    InsightsResponse :=
  { data := remote.take limit,
    nextPage := if limit < remote.length then some limit else none }

/-- Embeds `fetch_for_account` (meta_curl.py lines 37-78): issues one request with
page size 500 and returns the `data` field of that response; on a request error
it returns `[]`.  The function reads no `paging` field and issues no
follow-up request. -/
def fetch_for_account (remote : List MetaRow) (requestOk : Bool) :
    List MetaRow :=
  if requestOk then (metaInsightsPage remote 500).data else []

end MetaCurl

namespace GoogleCurl

/-- One formatted output row of the transform loop of both Google adapters
(src/frontend/api/google/google_curl.py lines 146-156 and
src/frontend/api/google_ads_custom/google_curl.py lines 169-179), with the
numeric payloads of the stringified fields modelled as rationals:
`website_purchase_roas` holds the value inside
`[{"value": str(roas)}]`, `action_value` the conversion value and
`action_count` the conversion count inside the Meta-compatible wrappers. -/
structure FormattedRow where
  campaign_id : String
  campaign_name : String
  spend : ℚ
  account_name : String
  platform : String
  website_purchase_roas : ℚ
  action_value : ℚ
  action_count : ℚ
  deriving DecidableEq

/-- The per-row transform shared by `fetch_for_customer` in both Google
adapters (google/google_curl.py lines 139-156, google_ads_custom/
google_curl.py lines 162-179): spend is the reported cost in micro-units
divided by 1,000,000, and return-on-spend is `conv_value / spend` when
`spend > 0`, else `0`. -/
def format_row (costMicros conversionsValue conversions : ℚ)
    (cid cname accName : String) : FormattedRow :=
  let spend : ℚ := costMicros / 1000000
  let roas : ℚ := if spend > 0 then conversionsValue / spend else 0
  { campaign_id := cid, campaign_name := cname, spend := spend,
    account_name := accName, platform := "google",
    website_purchase_roas := roas, action_value := conversionsValue,
    action_count := conversions }

end GoogleCurl

namespace Integrations

/-- One record of the Integrations table, as built by
`DynamoDB.save_integration` (src/frontend/api/Database/database.py lines
142-150). -/
structure IntegrationItem where
  platform : String
  account_id : String
  email : String
  access_token : String
  account_name : String
  status : String
  last_synced : String
  deriving DecidableEq

/-- Two integration records occupy the same (platform, account_id) slot. -/
def integrationKey (a b : IntegrationItem) : Bool :=
  a.platform == b.platform && a.account_id == b.account_id

/-- The `put_item` primitive of the backing store on the Integrations table: full replace
at the (platform, account_id) key. -/
def putIntegration (store : List IntegrationItem) (item : IntegrationItem) :
    List IntegrationItem :=
  item :: store.filter (fun r => !(integrationKey r item))

/-- Read the integration record at a (platform, account_id) key. -/
def lookupIntegration (store : List IntegrationItem)
    (platform account_id : String) : Option IntegrationItem :=
  store.find? (fun r => r.platform == platform && r.account_id == account_id)

/-- Embeds `DynamoDB.save_integration` (database.py lines 136-155):
`account_name` defaults to the account id, `last_synced` to the current
time. -/
def save_integration (store : List IntegrationItem)
    (platform account_id email access_token : String)
    (account_name : Option String) (status : String)
    (last_synced : Option String) (now : String) : List IntegrationItem :=
  putIntegration store
    { platform := platform, account_id := account_id, email := email,
      access_token := access_token,
      account_name := account_name.getD account_id, status := status,
      last_synced := last_synced.getD now }

/-- The Python test `"@" in str(cid)` (google/google_curl.py line 204,
google_ads_custom/google_curl.py line 226): character membership. -/
def looksLikeEmail (s : String) : Bool := s.data.contains '@'

/-- The account-resolution step of `fetch_and_store` in the REST Google
adapter (google/google_curl.py lines 202-224): a concrete (non-email) id is
returned as a singleton with no store write; a placeholder email id triggers
discovery, and each discovered id is written back as a concrete Integration
record carrying the email and (still encrypted) token of the original;
on empty discovery the placeholder itself is returned.  `discovered` is the
result of the `discover_accounts` network call. -/
def resolveAccountsRest (store : List IntegrationItem)
    (cid email token : String) (discovered : List String) (now : String) :
    List String × List IntegrationItem :=
  if looksLikeEmail cid then
    if discovered.isEmpty then ([cid], store)
    else
      (discovered,
        discovered.foldl
          (fun s real_cid =>
            save_integration s "google" real_cid email token
              (some ("Google Account (" ++ real_cid ++ ")")) "Active" none
              now)
          store)
  else ([cid], store)

/-- The account-resolution step of `fetch_and_store` in the SDK Google
adapter (google_ads_custom/google_curl.py lines 224-244): identical to
`resolveAccountsRest` except that empty discovery yields `[]` instead of
falling back to the placeholder id. -/
def resolveAccountsSdk (store : List IntegrationItem)
    (cid email token : String) (discovered : List String) (now : String) :
    List String × List IntegrationItem :=
  if looksLikeEmail cid then
    if discovered.isEmpty then ([], store)
    else
      (discovered,
        discovered.foldl
          (fun s real_cid =>
            save_integration s "google" real_cid email token
              (some ("Google Account (" ++ real_cid ++ ")")) "Active" none
              now)
          store)
  else ([cid], store)

end Integrations

/-- C1: for every stored timestamp list, `get_status` reports `syncs_used`
equal to the number of timestamps younger than three hours, `syncs_remaining`
equal to `max 0 (MAX_SYNCS - syncs_used)` (hence never negative), and
`can_sync` exactly when `syncs_remaining > 0`; on the empty window it reports
used 0, remaining 3, can_sync true. -/
theorem rateLimiter_status_correct (stored : List Int) (now : Int) :
    (SyncTracker.get_status stored now).syncs_used
        = stored.countP (fun ts => now - ts < 3 * 3600)
    ∧ (SyncTracker.get_status stored now).syncs_remaining
        = max 0 (3 - ((SyncTracker.get_status stored now).syncs_used : Int))
    ∧ 0 ≤ (SyncTracker.get_status stored now).syncs_remaining
    ∧ ((SyncTracker.get_status stored now).can_sync = true
        ↔ 0 < (SyncTracker.get_status stored now).syncs_remaining)
    ∧ (SyncTracker.get_status [] now).syncs_used = 0
    ∧ (SyncTracker.get_status [] now).syncs_remaining = 3
    ∧ (SyncTracker.get_status [] now).can_sync = true := by
  refine ⟨?_, ?_, ?_, ?_, ?_, ?_, ?_⟩
  · simp [SyncTracker.get_status, SyncTracker.activeTimestamps,
      SyncTracker.cooldownSeconds, SyncTracker.COOLDOWN_HOURS,
      List.countP_eq_length_filter]
  · simp [SyncTracker.get_status, SyncTracker.MAX_SYNCS]
  · simp [SyncTracker.get_status]
  · simp [SyncTracker.get_status]
  · simp [SyncTracker.get_status, SyncTracker.activeTimestamps]
  · simp [SyncTracker.get_status, SyncTracker.activeTimestamps,
      SyncTracker.MAX_SYNCS]
  · simp [SyncTracker.get_status, SyncTracker.activeTimestamps,
      SyncTracker.MAX_SYNCS]

/-- C9: a storage error on the tracker read behaves as a fresh empty window
(zero syncs used, `can_sync` true), and a storage error on the tracker write
is swallowed, so neither `get_status` nor `record_sync` fails its caller. -/
theorem rateLimiter_storage_errors (e : String) (now : Int)
    (r : Except String (Option (List Int))) (p : Except String Unit) :
    SyncTracker.getTracker (Except.error e) = []
    ∧ (SyncTracker.getStatusFromStore (Except.error e) now).syncs_used = 0
    ∧ (SyncTracker.getStatusFromStore (Except.error e) now).can_sync = true
    ∧ SyncTracker.saveTracker p = Except.ok ()
    ∧ (SyncTracker.record_sync r now p).2 = Except.ok () := by
  refine ⟨rfl, ?_, ?_, ?_, ?_⟩
  · simp [SyncTracker.getStatusFromStore, SyncTracker.getTracker,
      SyncTracker.get_status, SyncTracker.activeTimestamps]
  · simp [SyncTracker.getStatusFromStore, SyncTracker.getTracker,
      SyncTracker.get_status, SyncTracker.activeTimestamps,
      SyncTracker.MAX_SYNCS]
  · cases p <;> rfl
  · cases p <;> rfl

/-- C4: two successful writes to the same (campaign_id, range_days) key — via
the single-item writer and via the batch writer alike — leave exactly the
second item readable at that key: every field of the read-back row comes from
the second write, none from the first. -/
theorem write_overwrites_row (table : List Database.Item) (cid : String)
    (days : Int) (m1 m2 : List (String × String)) (t1 t2 : String)
    (h : Database.truthyId (some cid) = true) :
    Database.getItem
        ((Database.write_campaign_metrics
          ((Database.write_campaign_metrics table cid days m1 t1
            (fun _ => Database.WriteOutcome.ok)).1)
          cid days m2 t2 (fun _ => Database.WriteOutcome.ok)).1)
        cid days
      = some (Database.mkItem cid days m2 t2)
    ∧ Database.getItem
        ((Database.batch_write_campaign_metrics
          ((Database.write_campaign_metrics table cid days m1 t1
            (fun _ => Database.WriteOutcome.ok)).1)
          [⟨some cid, m2⟩] days t2 (fun _ _ => Database.WriteOutcome.ok)).1)
        cid days
      = some (Database.mkItem cid days m2 t2) := by
  constructor
  · simp [Database.write_campaign_metrics, Database.putWithRetry,
      Database.putItem, Database.getItem, Database.mkItem, List.find?]
  · simp [Database.write_campaign_metrics, Database.putWithRetry,
      Database.batch_write_campaign_metrics, Database.prepareItems, h,
      Database.chunksOf25, Database.applyChunk, Database.toItem,
      Database.putItem, Database.getItem, Database.mkItem, List.find?,
      List.range_succ, List.enum]

/-- C4 witness: the overwrite theorem instantiated at a concrete table and
key. -/
theorem write_overwrites_row_witness :
    Database.getItem
        ((Database.write_campaign_metrics
          ((Database.write_campaign_metrics [] "c1" 7 [("spend", "1")] "t1"
            (fun _ => Database.WriteOutcome.ok)).1)
          "c1" 7 [("spend", "2")] "t2" (fun _ => Database.WriteOutcome.ok)).1)
        "c1" 7
      = some (Database.mkItem "c1" 7 [("spend", "2")] "t2") :=
  (write_overwrites_row [] "c1" 7 [("spend", "1")] [("spend", "2")] "t1" "t2"
    (by decide)).1

/-- If every row of the input carries a truthy campaign_id, no row is
dropped by the item-preparation loop. -/
theorem prepareItems_length (campaigns : List Database.Campaign) (days : Int)
    (ts : String)
    (h : ∀ c ∈ campaigns, Database.truthyId c.campaign_id = true) :
    (Database.prepareItems campaigns days ts).length = campaigns.length := by
  induction campaigns with
  | nil => rfl
  | cons c cs ih =>
    have hc : Database.truthyId c.campaign_id = true :=
      h c (List.mem_cons_self c cs)
    have ih2 := ih (fun x hx => h x (List.mem_cons_of_mem c hx))
    simp [Database.prepareItems, hc] at ih2 ⊢
    exact ih2

/-- C5: with 37 input rows, each carrying a campaign_id, the batch writer
issues exactly 2 underlying batch calls, of 25 and 12 items. -/
theorem batch_write_chunks_37 (table : List Database.Item)
    (campaigns : List Database.Campaign) (days : Int) (ts : String)
    (outcomes : Nat → Nat → Database.WriteOutcome)
    (htruthy : ∀ c ∈ campaigns, Database.truthyId c.campaign_id = true)
    (hlen : campaigns.length = 37) :
    ((Database.batch_write_campaign_metrics table campaigns days ts
        outcomes).2.1).length = 2
    ∧ ((Database.batch_write_campaign_metrics table campaigns days ts
        outcomes).2.1).map List.length = [25, 12] := by
  have hne : campaigns.isEmpty = false := by
    cases campaigns with
    | nil => simp at hlen
    | cons c cs => rfl
  have hitems : (Database.prepareItems campaigns days ts).length = 37 := by
    rw [prepareItems_length campaigns days ts htruthy, hlen]
  constructor
  · simp [Database.batch_write_campaign_metrics, hne, Database.chunksOf25,
      hitems]
  · simp [Database.batch_write_campaign_metrics, hne, Database.chunksOf25,
      hitems, List.range_succ]

/-- C5 witness: 37 concrete rows produce batch calls of sizes [25, 12]. -/
theorem batch_write_chunks_37_witness :
    ((Database.batch_write_campaign_metrics []
        (List.replicate 37 ⟨some "c", []⟩) 7 "t"
        (fun _ _ => Database.WriteOutcome.ok)).2.1).map List.length
      = [25, 12] :=
  (batch_write_chunks_37 [] (List.replicate 37 ⟨some "c", []⟩) 7 "t"
    (fun _ _ => Database.WriteOutcome.ok)
    (by
      intro c hc
      rw [List.eq_of_mem_replicate hc]
      rfl)
    (by simp)).2

/-- Every batch call issued by the chunking loop carries at most 25 items,
and together the calls carry exactly the prepared items in order. -/
theorem join_chunks_helper {α : Type} :
    ∀ (m : Nat) (l : List α), l.length ≤ 25 * m →
      (((List.range m).map (fun i => (l.drop (25 * i)).take 25)).flatten) = l := by
  intro m
  induction m with
  | zero =>
    intro l hl
    simp at hl
    simp [hl]
  | succ m ih =>
    intro l hl
    rw [List.range_succ_eq_map, List.map_cons, List.map_map,
      List.flatten_cons]
    have hmap :
        ((List.range m).map
            ((fun i => (l.drop (25 * i)).take 25) ∘ Nat.succ))
          = ((List.range m).map
            (fun i => ((l.drop 25).drop (25 * i)).take 25)) := by
      apply List.map_congr_left
      intro i _
      simp only [Function.comp_apply, List.drop_drop]
      congr 2
      omega
    rw [hmap, ih (l.drop 25) (by simp; omega)]
    simp

/-- C10: the batch writer silently drops exactly the rows without a truthy
campaign_id (the issued batch calls together carry the kept rows and nothing
else), and it returns `True` for every input and every pattern of chunk
failures. -/
theorem batch_write_filters_and_returns_true (table : List Database.Item)
    (campaigns : List Database.Campaign) (days : Int) (ts : String)
    (outcomes : Nat → Nat → Database.WriteOutcome) :
    (Database.batch_write_campaign_metrics table campaigns days ts
        outcomes).2.2 = true
    ∧ Database.prepareItems campaigns days ts
        = (campaigns.filter (fun c => Database.truthyId c.campaign_id)).map
            (fun c => Database.toItem c days ts)
    ∧ ((Database.batch_write_campaign_metrics table campaigns days ts
        outcomes).2.1).flatten = Database.prepareItems campaigns days ts := by
  refine ⟨?_, ?_, ?_⟩
  · by_cases hne : campaigns.isEmpty
    · simp [Database.batch_write_campaign_metrics, hne]
    · simp [Database.batch_write_campaign_metrics, hne]
  · induction campaigns with
    | nil => rfl
    | cons c cs ih =>
      by_cases hc : Database.truthyId c.campaign_id
      · simp [Database.prepareItems, hc] at ih ⊢
        exact ih
      · simp [Database.prepareItems, hc] at ih ⊢
        exact ih
  · by_cases hne : campaigns.isEmpty
    · have : campaigns = [] := List.isEmpty_iff.mp hne
      simp [Database.batch_write_campaign_metrics, hne, this,
        Database.prepareItems]
    · simp only [Database.batch_write_campaign_metrics, hne, if_neg,
        Bool.false_eq_true, not_false_iff]
      exact join_chunks_helper _ _ (by omega)

set_option maxRecDepth 4096 in
/-- C3 (code bug): the Meta per-account fetch issues a single request with
page size 500 and returns only the rows of that one response.  On a remote result set
of 501 rows the server answers with 500 rows and a continuation cursor, and
`fetch_for_account` returns the 500 first-page rows, not the full set. -/
theorem meta_fetch_only_first_page :
    (MetaCurl.fetch_for_account
        (List.replicate 501 [("campaign_id", "c1")]) true).length = 500
    ∧ (MetaCurl.metaInsightsPage
        (List.replicate 501 [("campaign_id", "c1")]) 500).nextPage = some 500
    ∧ MetaCurl.fetch_for_account
        (List.replicate 501 [("campaign_id", "c1")]) true
      ≠ List.replicate 501 [("campaign_id", "c1")] := by
  have hpage : MetaCurl.fetch_for_account
      (List.replicate 501 [("campaign_id", "c1")]) true
      = List.replicate 500 [("campaign_id", "c1")] := by
    show (List.replicate 501 [("campaign_id", "c1")]).take 500
        = List.replicate 500 [("campaign_id", "c1")]
    rw [List.take_replicate]
    norm_num
  refine ⟨?_, ?_, ?_⟩
  · rw [hpage, List.length_replicate]
  · show (if 500 < (List.replicate 501 [("campaign_id", "c1")]).length
        then some 500 else none) = some 500
    rw [List.length_replicate]
    norm_num
  · intro h
    rw [hpage] at h
    have hlen := congrArg List.length h
    simp only [List.length_replicate] at hlen
    exact absurd hlen (by norm_num)

/-- C6: in the row transform of the Google adapters, spend is the micro-unit cost
divided by 1,000,000; return-on-spend equals conversion value over spend
when spend is positive and equals 0 when spend is 0 — division never occurs
with a zero divisor. -/
theorem google_roas_safe (cost v c : ℚ) (cid cname acc : String) :
    (GoogleCurl.format_row cost v c cid cname acc).spend = cost / 1000000
    ∧ ((GoogleCurl.format_row cost v c cid cname acc).spend > 0 →
        (GoogleCurl.format_row cost v c cid cname acc).website_purchase_roas
          = v / (GoogleCurl.format_row cost v c cid cname acc).spend)
    ∧ ((GoogleCurl.format_row cost v c cid cname acc).spend = 0 →
        (GoogleCurl.format_row cost v c cid cname acc).website_purchase_roas
          = 0) := by
  refine ⟨rfl, ?_, ?_⟩
  · intro h
    simp only [GoogleCurl.format_row] at h ⊢
    rw [if_pos h]
  · intro h
    simp only [GoogleCurl.format_row] at h ⊢
    rw [h, if_neg (lt_irrefl 0)]

/-- C6 witness: zero spend yields return-on-spend 0 (no division error);
positive spend yields the quotient. -/
theorem google_roas_safe_witness :
    (GoogleCurl.format_row 0 5 1 "c" "n" "a").website_purchase_roas = 0
    ∧ (GoogleCurl.format_row 2000000 3 1 "c" "n" "a").website_purchase_roas
        = 3 / 2 := by
  constructor
  · exact (google_roas_safe 0 5 1 "c" "n" "a").2.2
      (by norm_num [GoogleCurl.format_row])
  · have h := (google_roas_safe 2000000 3 1 "c" "n" "a").2.1
      (by norm_num [GoogleCurl.format_row])
    rw [h]
    norm_num [GoogleCurl.format_row]

/-- A filter keeping every record a search predicate could match does not
change the search result. -/
theorem find?_filter_of_imp {α : Type} (p q : α → Bool) (l : List α)
    (h : ∀ a, p a = true → q a = true) :
    (l.filter q).find? p = l.find? p := by
  induction l with
  | nil => rfl
  | cons a l ih =>
    cases hq : q a with
    | true =>
      cases hp : p a with
      | true => simp [List.filter_cons, hq, List.find?_cons, hp]
      | false => simp [List.filter_cons, hq, List.find?_cons, hp, ih]
    | false =>
      have hp : p a = false := by
        cases hpa : p a
        · rfl
        · exact absurd (h a hpa) (by simp [hq])
      simp [List.filter_cons, hq, List.find?_cons, hp, ih]

/-- Re-running a pair of filters is the identity on the already-filtered
list. -/
theorem filter_pair_idem {α : Type} (p q : α → Bool) (l : List α) :
    (((l.filter p).filter q).filter p).filter q = (l.filter p).filter q := by
  induction l with
  | nil => rfl
  | cons a l ih =>
    cases hp : p a <;> cases hq : q a <;>
      simp [List.filter_cons, hp, hq, ih, -List.filter_filter]

/-- Every record matches its own key. -/
theorem integrationKey_self (a : Integrations.IntegrationItem) :
    Integrations.integrationKey a a = true := by
  simp [Integrations.integrationKey]

/-- Writing the same two key-distinct integration records again rebuilds
exactly the same store. -/
theorem putIntegration_reapply (store : List Integrations.IntegrationItem)
    (a b : Integrations.IntegrationItem)
    (hab : Integrations.integrationKey a b = false)
    (hba : Integrations.integrationKey b a = false) :
    Integrations.putIntegration
        (Integrations.putIntegration
          (Integrations.putIntegration (Integrations.putIntegration store a)
            b) a) b
      = Integrations.putIntegration (Integrations.putIntegration store a)
          b := by
  simp [Integrations.putIntegration, List.filter_cons, hab, hba,
    integrationKey_self, -List.filter_filter]
  exact filter_pair_idem _ _ store

/-- Inserting an integration record makes it readable at its own key. -/
theorem lookup_putIntegration_self (store : List Integrations.IntegrationItem)
    (item : Integrations.IntegrationItem) :
    Integrations.lookupIntegration (Integrations.putIntegration store item)
        item.platform item.account_id
      = some item := by
  unfold Integrations.lookupIntegration Integrations.putIntegration
  rw [List.find?_cons_of_pos _ (by simp)]

/-- Inserting an integration record leaves lookups at a different
account_id unchanged. -/
theorem lookup_putIntegration_ne (store : List Integrations.IntegrationItem)
    (item : Integrations.IntegrationItem) (platform account_id : String)
    (h : (account_id == item.account_id) = false) :
    Integrations.lookupIntegration (Integrations.putIntegration store item)
        platform account_id
      = Integrations.lookupIntegration store platform account_id := by
  unfold Integrations.lookupIntegration Integrations.putIntegration
  rw [List.find?_cons_of_neg _ ?hne]
  · apply find?_filter_of_imp
    intro a ha
    rw [Bool.and_eq_true] at ha
    have hacc : a.account_id = account_id := eq_of_beq ha.2
    have hbe : (a.account_id == item.account_id) = false := by
      rw [hacc]; exact h
    simp [Integrations.integrationKey, hbe]
  case hne =>
    intro hc
    rw [Bool.and_eq_true] at hc
    have hacc : item.account_id = account_id := eq_of_beq hc.2
    rw [← hacc] at h
    simp at h

/-- C8: when the stored account identifier is already concrete (no "@"),
account resolution in both Google adapters returns exactly the singleton
list of that identifier and writes nothing to the integrations store. -/
theorem resolve_concrete_id_noop (store : List Integrations.IntegrationItem)
    (cid email token : String) (discovered : List String) (now : String)
    (h : Integrations.looksLikeEmail cid = false) :
    Integrations.resolveAccountsRest store cid email token discovered now
        = ([cid], store)
    ∧ Integrations.resolveAccountsSdk store cid email token discovered now
        = ([cid], store) := by
  constructor
  · simp [Integrations.resolveAccountsRest, h]
  · simp [Integrations.resolveAccountsSdk, h]

/-- C8 witness: a concrete numeric id resolves to itself with no store
write. -/
theorem resolve_concrete_id_noop_witness :
    Integrations.resolveAccountsRest [] "1234567890" "u@x.com" "tok"
        ["999"] "t0"
      = (["1234567890"], []) :=
  (resolve_concrete_id_noop [] "1234567890" "u@x.com" "tok" ["999"] "t0"
    (by decide)).1

/-- C7: resolving a placeholder integration (account id an email) whose
discovery returns ["111", "222"] writes one concrete Integration record per
discovered id — each carrying the email and encrypted credential of the
original record — leaves the record at the placeholder key untouched, and
is idempotent: repeating the discovery rebuilds the identical store.  The
SDK adapter behaves identically on this input. -/
theorem placeholder_discovery_splits
    (store : List Integrations.IntegrationItem) (email token now : String) :
    (Integrations.resolveAccountsRest store "user@example.com" email token
        ["111", "222"] now).1 = ["111", "222"]
    ∧ Integrations.lookupIntegration
        (Integrations.resolveAccountsRest store "user@example.com" email
          token ["111", "222"] now).2 "google" "111"
      = some ⟨"google", "111", email, token, "Google Account (111)",
          "Active", now⟩
    ∧ Integrations.lookupIntegration
        (Integrations.resolveAccountsRest store "user@example.com" email
          token ["111", "222"] now).2 "google" "222"
      = some ⟨"google", "222", email, token, "Google Account (222)",
          "Active", now⟩
    ∧ Integrations.lookupIntegration
        (Integrations.resolveAccountsRest store "user@example.com" email
          token ["111", "222"] now).2 "google" "user@example.com"
      = Integrations.lookupIntegration store "google" "user@example.com"
    ∧ Integrations.resolveAccountsRest
        (Integrations.resolveAccountsRest store "user@example.com" email
          token ["111", "222"] now).2 "user@example.com" email token
        ["111", "222"] now
      = (["111", "222"],
        (Integrations.resolveAccountsRest store "user@example.com" email
          token ["111", "222"] now).2)
    ∧ Integrations.resolveAccountsSdk store "user@example.com" email token
        ["111", "222"] now
      = Integrations.resolveAccountsRest store "user@example.com" email
          token ["111", "222"] now := by
  have hres : ∀ s : List Integrations.IntegrationItem,
      Integrations.resolveAccountsRest s "user@example.com" email token
          ["111", "222"] now
        = (["111", "222"],
          Integrations.putIntegration
            (Integrations.putIntegration s
              ⟨"google", "111", email, token, "Google Account (111)",
                "Active", now⟩)
            ⟨"google", "222", email, token, "Google Account (222)",
              "Active", now⟩) :=
    fun s => rfl
  have h111ne : (("111" : String) ==
      (⟨"google", "222", email, token, "Google Account (222)", "Active",
        now⟩ : Integrations.IntegrationItem).account_id) = false := by
    simp
  have hPh222 : (("user@example.com" : String) ==
      (⟨"google", "222", email, token, "Google Account (222)", "Active",
        now⟩ : Integrations.IntegrationItem).account_id) = false := by
    simp
  have hPh111 : (("user@example.com" : String) ==
      (⟨"google", "111", email, token, "Google Account (111)", "Active",
        now⟩ : Integrations.IntegrationItem).account_id) = false := by
    simp
  have hk12 : Integrations.integrationKey
      ⟨"google", "111", email, token, "Google Account (111)", "Active", now⟩
      ⟨"google", "222", email, token, "Google Account (222)", "Active",
        now⟩ = false := by
    simp [Integrations.integrationKey]
  have hk21 : Integrations.integrationKey
      ⟨"google", "222", email, token, "Google Account (222)", "Active", now⟩
      ⟨"google", "111", email, token, "Google Account (111)", "Active",
        now⟩ = false := by
    simp [Integrations.integrationKey]
  refine ⟨?_, ?_, ?_, ?_, ?_, ?_⟩
  · rw [hres]
  · rw [hres, lookup_putIntegration_ne _ _ _ _ h111ne]
    exact lookup_putIntegration_self store _
  · rw [hres]
    exact lookup_putIntegration_self _ _
  · rw [hres, lookup_putIntegration_ne _ _ _ _ hPh222,
      lookup_putIntegration_ne _ _ _ _ hPh111]
  · simp only [hres]
    simp only [Prod.mk.injEq, true_and]
    exact putIntegration_reapply store _ _ hk12 hk21
  · rfl

/-- C2 (code bug): on a table whose scan spans more than one page, the
indexed read path follows continuation keys and returns every matching row,
but the scan fallback issues a single scan call and returns only the first
page — the two paths are not equivalent.  Concretely: two rows stored for
window 7, store page size 1. -/
theorem read_fallback_not_equivalent :
    Database.read_campaign_metrics_indexed
        [Database.mkItem "a" 7 [] "", Database.mkItem "b" 7 [] ""] 7 1
      = [Database.mkItem "a" 7 [] "", Database.mkItem "b" 7 [] ""]
    ∧ Database.read_campaign_metrics_fallback
        [Database.mkItem "a" 7 [] "", Database.mkItem "b" 7 [] ""] 7 1
      = [Database.mkItem "a" 7 [] ""]
    ∧ Database.read_campaign_metrics_indexed
        [Database.mkItem "a" 7 [] "", Database.mkItem "b" 7 [] ""] 7 1
      ≠ Database.read_campaign_metrics_fallback
        [Database.mkItem "a" 7 [] "", Database.mkItem "b" 7 [] ""] 7 1 := by
  refine ⟨rfl, rfl, ?_⟩
  decide
